/-
  Verification of the pipeline-whisperer outbound-sales pipeline.

  Shallow embedding of the three stream-processing workers
  (`lead_scorer_worker.py`, `outreach_orchestrator_worker.py`,
  `feedback_loop_worker.py`), the SQLAlchemy entity models
  (`lead.py`, `experiment.py`, `outreach_log.py`) and the mock scoring
  path of `openai_scoring_client.py`.

  Conventions of the embedding:
  * Python floats are modelled as rationals (ℚ); Python ints as ℤ or ℕ.
  * The database session is modelled as explicit lists of rows; SQLAlchemy
    object mutation + commit is modelled by replacing the matched row.
  * External adapters (scoring LLM, personalization, delivery, Kafka
    producer) are parameters of the worker functions.
  * Fallible worker handlers return an explicit outcome record carrying the
    new database state, the events emitted, and the success flag the main
    loop uses to decide whether to commit the Kafka offset.
-/
import Mathlib

set_option maxRecDepth 4096

/-! ## Python integer parsing

`int(s)` as used by `_estimate_employee_count` on strings that have already
been `strip()`ed: an optional sign followed by at least one decimal digit.
(Python additionally allows surrounding whitespace and digit-group
underscores; neither can occur after `strip()` on the labels in question.) -/

def digitsToNat (ds : List Char) : Option Nat :=
  if ds = [] then none
  else if ds.all Char.isDigit then
    some (ds.foldl (fun n c => 10 * n + (c.toNat - 48)) 0)
  else none

def parsePyInt (s : String) : Option Int :=
  match s.data with
  | '-' :: rest => (digitsToNat rest).map (fun n => -(n : Int))
  | '+' :: rest => (digitsToNat rest).map (fun n => (n : Int))
  | ds => (digitsToNat ds).map (fun n => (n : Int))

/-- Python `s.strip()`: drop leading and trailing whitespace. -/
def pyStrip (s : String) : String :=
  ⟨((s.data.dropWhile Char.isWhitespace).reverse.dropWhile Char.isWhitespace).reverse⟩

/-- Python `s.lower()` on the ASCII range (the only letters the size labels
contain). -/
def pyLower (s : String) : String :=
  ⟨s.data.map Char.toLower⟩

/-- Python `s.endswith("+")`. -/
def endsWithPlus (s : String) : Bool :=
  match s.data.getLast? with
  | some '+' => true
  | _ => false

/-- Python `s.rstrip("+")`: drop every trailing `'+'`. -/
def rstripPlus (s : String) : String :=
  ⟨(s.data.reverse.dropWhile (· = '+')).reverse⟩

/-- Is `'-'` a character of the string (Python `"-" in size`)? -/
def containsDash (s : String) : Bool :=
  s.data.contains '-'

/-- Python `s.split("-", maxsplit=1)` when `"-" in s`: the part before the
first `'-'` and the part after it. -/
def splitFirstDash (s : String) : String × String :=
  (⟨s.data.takeWhile (· ≠ '-')⟩, ⟨(s.data.dropWhile (· ≠ '-')).drop 1⟩)

/-! ## `LeadScorerWorker._estimate_employee_count`

Translated from `src/services/workers/lead_scorer_worker.py`, lines 134-171.
Python `//` is floor division, hence `Int.fdiv`. -/

def estimateEmployeeCount (size : Option String) : Int :=
  match size with
  | none => 0
  | some s0 =>
    -- `if not size: return 0` (None or empty string)
    if s0 = "" then 0
    else
      let s := pyLower (pyStrip s0)
      if endsWithPlus s then
        match parsePyInt (rstripPlus s) with
        | some lower => Int.fdiv (lower + lower * 2) 2
        | none => 0
      else if s = "1-10" then Int.fdiv (1 + 10) 2
      else if s = "11-50" then Int.fdiv (11 + 50) 2
      else if s = "51-200" then Int.fdiv (51 + 200) 2
      else if s = "201-1000" then Int.fdiv (201 + 1000) 2
      else if containsDash s then
        let p := splitFirstDash s
        match parsePyInt p.1, parsePyInt p.2 with
        | some lower, some upper => Int.fdiv (lower + upper) 2
        | _, _ => 0
      else
        match parsePyInt s with
        | some n => n
        | none => 0

/-! ## `OpenAIScoringClient._mock_score_lead`

Translated from `src/apps/agent-api/app/services/openai_scoring_client.py`,
lines 156-184.  The `random.uniform(-0.05, 0.05)` jitter is a parameter.
`round(score, 3)` is modelled with Mathlib's `round` (Python's float `round`
is half-to-even; the two agree except on exact half-thousandth ties, and no
property proved here depends on the tie direction). -/

def round3 (x : ℚ) : ℚ :=
  ((round (1000 * x) : ℤ) : ℚ) / 1000

structure MockScore where
  score : ℚ
  persona : String
  reasoning : String
  mock : Bool
deriving Repr, DecidableEq

def mockScoreLead (employeeCount : Option ℤ) (revenue : Option ℚ)
    (jitter : ℚ) : MockScore :=
  -- `lead_payload.get("employee_count", 0)` / `lead_payload.get("revenue", 0)`
  let companySize : ℤ := employeeCount.getD 0
  let rev : ℚ := revenue.getD 0
  let base : ℚ := 0.4
  let base : ℚ :=
    if companySize > 1000 then base + 0.2
    else if companySize > 200 then base + 0.15
    else if companySize > 50 then base + 0.1
    else base
  let base : ℚ :=
    if rev > 10000000 then base + 0.15
    else if rev > 2000000 then base + 0.1
    else base
  let persona : String := if companySize ≥ 500 then "enterprise" else "smb"
  let score : ℚ := min 0.95 (max 0.2 (base + jitter))
  { score := round3 score
    persona := persona
    reasoning := "Mock scoring based on company size and revenue"
    mock := true }

/-! ## Entity models

Translated from `src/apps/agent-api/app/models/{lead,experiment,outreach_log,
outreach_template}.py`.  Timestamps are abstract naturals (`datetime.now` is a
`now` parameter of the worker functions).  Column defaults appear in the
`mk*` constructors. -/

inductive LeadStatus
  | raw | scored | queued | contacted | responded | converted | failing | snoozed
deriving Repr, DecidableEq

inductive LeadPersona
  | enterprise | smb | startup | individual | unknown
deriving Repr, DecidableEq

structure Lead where
  id : ℕ
  lightfieldId : String
  companyName : String
  contactName : Option String
  contactEmail : Option String
  industry : Option String
  companySize : Option String
  score : Option ℚ
  persona : LeadPersona
  status : LeadStatus
  experimentId : Option String
  outreachCount : ℕ
  responseCount : ℕ
  scoredAt : Option ℕ
  contactedAt : Option ℕ
deriving Repr, DecidableEq

structure Experiment where
  experimentId : String
  leadsAssigned : ℕ
  outreachSent : ℕ
  responsesReceived : ℕ
  conversions : ℕ
  conversionRate : ℚ
  responseRate : ℚ
  alpha : ℚ
  beta : ℚ
  isActive : Bool
deriving Repr, DecidableEq

/-- Column defaults of the `experiments` table. -/
def mkExperiment (eid : String) : Experiment :=
  { experimentId := eid
    leadsAssigned := 0
    outreachSent := 0
    responsesReceived := 0
    conversions := 0
    conversionRate := 0
    responseRate := 0
    alpha := 1
    beta := 1
    isActive := true }

/-- `Experiment.update_metrics` (`experiment.py`, lines 49-54). -/
def Experiment.updateMetrics (e : Experiment) : Experiment :=
  let e :=
    if e.leadsAssigned > 0 then
      { e with conversionRate := (e.conversions : ℚ) / (e.leadsAssigned : ℚ) }
    else e
  if e.outreachSent > 0 then
    { e with responseRate := (e.responsesReceived : ℚ) / (e.outreachSent : ℚ) }
  else e

inductive OutreachStatus
  | pending | sent | delivered | opened | clicked | replied | bounced
  | unsubscribed | failing
deriving Repr, DecidableEq

structure OutreachLog where
  id : ℕ
  leadId : ℕ
  experimentId : String
  templateId : String
  subject : String
  body : String
  channel : String
  sentVia : String
  externalMessageId : Option String
  status : OutreachStatus
  errorMessage : Option String
  createdAt : ℕ
  sentAt : Option ℕ
  openedAt : Option ℕ
  clickedAt : Option ℕ
  repliedAt : Option ℕ
deriving Repr, DecidableEq

structure OutreachTemplate where
  templateId : String
  experimentId : String
  subjectLine : Option String
  bodyTemplate : String
  personalizationPrompt : Option String
  channel : String
  isActive : Bool
deriving Repr, DecidableEq

/-! ## Database session

Rows live in lists; a query is `find?` on the key column; mutating a fetched
ORM row and committing replaces the row with the same key. -/

structure Db where
  leads : List Lead
  experiments : List Experiment
  templates : List OutreachTemplate
  logs : List OutreachLog
deriving Repr, DecidableEq

/-- `query(...).filter(key == k).first()`. -/
def findRow {κ α : Type} [DecidableEq κ] (key : α → κ) (k : κ) :
    List α → Option α
  | [] => none
  | x :: t => if key x = k then some x else findRow key k t

/-- Committing a mutated ORM row: every row with the key is replaced. -/
def replaceRow {κ α : Type} [DecidableEq κ] (key : α → κ) (k : κ) (new : α) :
    List α → List α
  | [] => []
  | x :: t => (if key x = k then new else x) :: replaceRow key k new t

def findLeadById (db : Db) (i : ℕ) : Option Lead :=
  findRow Lead.id i db.leads

def findLeadByLightfieldId (db : Db) (s : String) : Option Lead :=
  findRow Lead.lightfieldId s db.leads

def findExperiment (db : Db) (s : String) : Option Experiment :=
  findRow Experiment.experimentId s db.experiments

def findLog (db : Db) (i : ℕ) : Option OutreachLog :=
  findRow OutreachLog.id i db.logs

def updateLead (db : Db) (l : Lead) : Db :=
  { db with leads := replaceRow Lead.id l.id l db.leads }

def updateExperiment (db : Db) (e : Experiment) : Db :=
  { db with experiments := replaceRow Experiment.experimentId e.experimentId e db.experiments }

def updateLog (db : Db) (g : OutreachLog) : Db :=
  { db with logs := replaceRow OutreachLog.id g.id g db.logs }

/-! ## Feedback worker

Translated from `src/services/workers/feedback_loop_worker.py`. -/

/-- `update_thompson_sampling_priors` (lines 52-75). -/
def updateThompsonSamplingPriors (experiment : Experiment)
    (conversion : Bool) : Experiment :=
  if conversion then { experiment with alpha := experiment.alpha + 1 }
  else { experiment with beta := experiment.beta + 1 }

structure EngagementEvent where
  eventType : String
  leadId : Option ℕ
  experimentId : Option String
deriving Repr, DecidableEq

/-- Keep whichever of the accumulator and the next row has the greater
`created_at` (strictly greater replaces). -/
def pickLater (acc : Option OutreachLog) (g : OutreachLog) : Option OutreachLog :=
  match acc with
  | none => some g
  | some b => if g.createdAt > b.createdAt then some g else some b

/-- The most recent `OutreachLog` for `(lead_id, experiment_id)`:
`order_by(created_at.desc()).first()`.  Among rows tied on `created_at` the
SQL order is unspecified; the model keeps the first of maximal `created_at`. -/
def latestLogFor (logs : List OutreachLog) (leadId : ℕ)
    (expId : String) : Option OutreachLog :=
  (logs.filter (fun g => g.leadId = leadId ∧ g.experimentId = expId)).foldl
    pickLater none

/-- `process_engagement_event` (lines 78-211).  Returns the success flag
(the main loop commits the Kafka offset iff it is `true`) and the database
state after `db.commit()`.  `if not lead_id or not experiment_id` uses
Python truthiness: `None`, `0` and `""` are all falsy. -/
def processEngagementEvent (now : ℕ) (event : EngagementEvent)
    (db : Db) : Bool × Db :=
  match event.leadId, event.experimentId with
  | some leadId, some expId =>
    if leadId = 0 ∨ expId = "" then (false, db)
    else
      match findLeadById db leadId, findExperiment db expId with
      | some lead, some experiment =>
        if event.eventType = "outreach.opened" then
          let db :=
            match latestLogFor db.logs leadId expId with
            | some g =>
                updateLog db { g with status := .opened, openedAt := some now }
            | none => db
          (true, updateExperiment db experiment.updateMetrics)
        else if event.eventType = "outreach.clicked" then
          let db :=
            match latestLogFor db.logs leadId expId with
            | some g =>
                updateLog db { g with status := .clicked, clickedAt := some now }
            | none => db
          (true, updateExperiment db experiment.updateMetrics)
        else if event.eventType = "outreach.replied" then
          let db := updateLead db
            { lead with status := .responded,
                        responseCount := lead.responseCount + 1 }
          let db :=
            match latestLogFor db.logs leadId expId with
            | some g =>
                updateLog db { g with status := .replied, repliedAt := some now }
            | none => db
          let experiment :=
            { experiment with
                responsesReceived := experiment.responsesReceived + 1 }
          (true, updateExperiment db experiment.updateMetrics)
        else if event.eventType = "outreach.converted" then
          let db := updateLead db { lead with status := .converted }
          let experiment :=
            { experiment with conversions := experiment.conversions + 1 }
          let experiment := updateThompsonSamplingPriors experiment true
          (true, updateExperiment db experiment.updateMetrics)
        else
          -- unknown event type: `return True` before any mutation
          (true, db)
      | _, _ => (false, db)
  | _, _ => (false, db)

/-! ## Scorer worker

Translated from `src/services/workers/lead_scorer_worker.py`.  The scoring
adapter call (`self.scoring_client.score_lead` plus the field extraction in
`score_lead_with_openai`) is a parameter; the database-assigned primary key
of the inserted row and `datetime.now` are parameters as well. -/

/-- `LeadScorerWorker._to_persona_enum` (lines 111-119): case-insensitive
mapping into the `LeadPersona` enumeration, unknown values → `unknown`. -/
def toPersonaEnum (personaValue : Option String) : LeadPersona :=
  match personaValue with
  | none => .unknown
  | some s =>
    if s = "" then .unknown   -- `if not persona_value`
    else
      let s := pyLower s
      if s = "enterprise" then .enterprise
      else if s = "smb" then .smb
      else if s = "startup" then .startup
      else if s = "individual" then .individual
      else if s = "unknown" then .unknown
      else .unknown            -- `except ValueError`

/-- The result of `score_lead_with_openai`: score and the already-mapped
persona (the remaining fields are metadata echoed into the row). -/
structure ScoringResult where
  score : ℚ
  persona : LeadPersona
deriving Repr, DecidableEq

/-- A `leads.raw` record, restricted to the fields `process_lead` reads.
Records whose `lightfield_id` is absent fail the NOT NULL constraint of the
insert and leave the offset uncommitted; they are outside every claim and
not modelled. -/
structure RawLeadRecord where
  lightfieldId : String
  companyName : String
  contactName : Option String
  contactEmail : Option String
  industry : Option String
  companySize : Option String
deriving Repr, DecidableEq

inductive ScorerAction
  | dbCommit        -- `self.db.commit()`
  | publishAttempt  -- `self.producer.publish_scored_lead(...)`
deriving Repr, DecidableEq

/-- The trimmed `leads.scored` payload (`_build_public_scoring_payload`
plus `db_id`), restricted to the fields the claims mention. -/
structure ScoredEvent where
  lightfieldId : String
  score : ℚ
  persona : LeadPersona
  dbId : ℕ
deriving Repr, DecidableEq

structure ScorerOutcome where
  db : Db
  emitted : List ScoredEvent
  trace : List ScorerAction   -- order of commit/publish side effects
  raised : Bool               -- an exception propagated out of `process_lead`
deriving Repr, DecidableEq

/-- `LeadScorerWorker.process_lead` (lines 233-306).  `publishOk` tells
whether `publish_scored_lead` succeeds in queueing the event.  A failing
publish does NOT raise: `KafkaProducerService.publish_scored_lead`
(`kafka_producer.py`, lines 82-110) catches every `Exception` and returns
`False`, and `process_lead` (line 289) discards that return value — so on a
publish failure nothing is emitted but the handler still returns normally
(`raised := false`) and `run` commits the offset. -/
def processLead (db : Db) (record : RawLeadRecord) (scoring : ScoringResult)
    (newId : ℕ) (now : ℕ) (publishOk : Bool) : ScorerOutcome :=
  match findLeadByLightfieldId db record.lightfieldId with
  | some _ =>
      -- `Lead {lightfield_id} already processed, skipping`
      { db := db, emitted := [], trace := [], raised := false }
  | none =>
    let lead : Lead :=
      { id := newId
        lightfieldId := record.lightfieldId
        companyName := record.companyName
        contactName := record.contactName
        contactEmail := record.contactEmail
        industry := record.industry
        companySize := record.companySize
        score := some scoring.score
        persona := scoring.persona
        status := .scored
        experimentId := none
        outreachCount := 0
        responseCount := 0
        scoredAt := some now
        contactedAt := none }
    let db' : Db := { db with leads := db.leads ++ [lead] }
    if publishOk then
      { db := db'
        emitted := [⟨record.lightfieldId, scoring.score, scoring.persona, newId⟩]
        trace := [.dbCommit, .publishAttempt]
        raised := false }
    else
      { db := db'
        emitted := []
        trace := [.dbCommit, .publishAttempt]
        raised := false }

/-- `LeadScorerWorker.run` (lines 322-332) commits the offset exactly when
`process_lead` returned without raising. -/
def scorerOffsetCommitted (o : ScorerOutcome) : Bool :=
  !o.raised

/-- Rows of `l` whose `lightfield_id` equals `s` (scorer idempotence is
phrased with this count). -/
def countLeadsWithId (db : Db) (s : String) : ℕ :=
  db.leads.countP (fun l => decide (l.lightfieldId = s))

/-! ## Orchestrator worker

Translated from `src/services/workers/outreach_orchestrator_worker.py`.
The personalization adapter's message, the delivery adapter's result, the
Thompson samples, the new log row's primary key and `datetime.now` are
parameters. -/

/-- First match of a boolean filter (`query(...).filter(...).first()`). -/
def firstWhere {α : Type} (p : α → Bool) : List α → Option α
  | [] => none
  | x :: t => if p x then some x else firstWhere p t

/-- `select_experiment` (lines 58-96): Thompson Sampling over the active
experiments; `best_sample` starts at `-1` and only a strictly greater sample
replaces the incumbent (ties keep the earlier experiment). -/
def selectExperiment (experiments : List Experiment)
    (sample : String → ℚ) : Option Experiment :=
  (((experiments.filter (fun e => e.isActive)).foldl
      (fun acc e =>
        if sample e.experimentId > acc.2 then (some e, sample e.experimentId)
        else acc)
      ((none : Option Experiment), (-1 : ℚ)))).1

/-- `get_template_for_experiment` (lines 99-113). -/
def getTemplateForExperiment (templates : List OutreachTemplate)
    (experiment : Experiment) : Option OutreachTemplate :=
  firstWhere
    (fun t => decide (t.experimentId = experiment.experimentId ∧ t.isActive = true))
    templates

/-- Output of `truefoundry.generate_personalized_message`; the worker reads
it with `message.get("subject", …)` / `message.get("body", "")`. -/
structure PersonalizedMessage where
  subject : Option String
  body : Option String
deriving Repr, DecidableEq

/-- Output of `lightfield.send_email`. -/
structure SendResult where
  status : String
  error : Option String
  messageId : Option String
  provider : Option String
  sentAt : Option ℕ
deriving Repr, DecidableEq

structure OutreachEvent where
  eventType : String
  leadId : ℕ
  lightfieldId : String
  experimentId : String
  templateId : String
  channel : String
  messageId : Option String
  subject : String
deriving Repr, DecidableEq

structure OrchOutcome where
  ok : Bool                    -- return value of `process_scored_lead`
  db : Db
  emitted : List OutreachEvent
deriving Repr, DecidableEq

/-- `process_scored_lead` (lines 116-261).  The Kafka produce of the
`outreach.sent` event is modelled as succeeding (its failure path is not
touched by any claim). -/
def processScoredLead (event : Option String) (db : Db)
    (sample : String → ℚ) (message : PersonalizedMessage)
    (sendResult : SendResult) (newLogId : ℕ) (now : ℕ) : OrchOutcome :=
  match event with
  | none => ⟨false, db, []⟩
  | some lfid =>
    if lfid = "" then ⟨false, db, []⟩   -- `if not lightfield_id` (falsy "")
    else
      match findLeadByLightfieldId db lfid with
      | none => ⟨false, db, []⟩
      | some lead =>
        if lead.status = .contacted ∨ lead.status = .responded ∨
            lead.status = .converted then
          ⟨true, db, []⟩
        else
          -- `if lead.score is None or lead.score < 0.5` (short-circuit)
          match lead.score with
          | none => ⟨true, db, []⟩
          | some sc =>
          if sc < 1/2 then ⟨true, db, []⟩
          else
          match selectExperiment db.experiments sample with
          | none => ⟨false, db, []⟩
          | some experiment =>
            match getTemplateForExperiment db.templates experiment with
            | none => ⟨false, db, []⟩
            | some template =>
              if sendResult.status ≠ "sent" then ⟨false, db, []⟩
              else
                let log : OutreachLog :=
                  { id := newLogId
                    leadId := lead.id
                    experimentId := experiment.experimentId
                    templateId := template.templateId
                    subject := message.subject.getD ""
                    body := message.body.getD ""
                    channel := template.channel
                    sentVia := sendResult.provider.getD "lightfield"
                    externalMessageId := sendResult.messageId
                    status := .sent
                    errorMessage := none
                    createdAt := now
                    sentAt := some (sendResult.sentAt.getD now)
                    openedAt := none
                    clickedAt := none
                    repliedAt := none }
                let lead' : Lead :=
                  { lead with
                      status := .contacted
                      experimentId := some experiment.experimentId
                      contactedAt := some now
                      outreachCount := lead.outreachCount + 1 }
                let experiment' : Experiment :=
                  ({ experiment with
                       leadsAssigned := experiment.leadsAssigned + 1
                       outreachSent := experiment.outreachSent + 1 }).updateMetrics
                let db := { db with logs := db.logs ++ [log] }
                let db := updateLead db lead'
                let db := updateExperiment db experiment'
                ⟨true, db,
                  [⟨"outreach.sent", lead.id, lead.lightfieldId,
                    experiment.experimentId, template.templateId,
                    template.channel, sendResult.messageId,
                    message.subject.getD ""⟩]⟩

/-! ## The per-experiment effect of each pipeline operation

Projection of the worker handlers onto the `Experiment` row they touch, used
to state the experiment invariants across operations; each arm repeats the
exact bookkeeping of the corresponding worker branch. -/

inductive PipelineOp
  | orchSend      -- orchestrator lines 222-225
  | fbOpened      -- feedback `outreach.opened` branch
  | fbClicked     -- feedback `outreach.clicked` branch
  | fbReplied     -- feedback `outreach.replied` branch
  | fbConverted   -- feedback `outreach.converted` branch
deriving Repr, DecidableEq

def applyPipelineOp (e : Experiment) : PipelineOp → Experiment
  | .orchSend =>
      ({ e with leadsAssigned := e.leadsAssigned + 1
                outreachSent := e.outreachSent + 1 }).updateMetrics
  | .fbOpened => e.updateMetrics
  | .fbClicked => e.updateMetrics
  | .fbReplied =>
      ({ e with responsesReceived := e.responsesReceived + 1 }).updateMetrics
  | .fbConverted =>
      (updateThompsonSamplingPriors
        { e with conversions := e.conversions + 1 } true).updateMetrics

/-! ## Test fixtures (concrete rows reused by witnesses and counterexamples) -/

def testLead : Lead :=
  { id := 1
    lightfieldId := "lf-1"
    companyName := "Acme"
    contactName := some "Ann"
    contactEmail := some "ann@acme.test"
    industry := some "software"
    companySize := some "51-200"
    score := some 0.9
    persona := .smb
    status := .contacted
    experimentId := some "exp-a"
    outreachCount := 1
    responseCount := 0
    scoredAt := some 0
    contactedAt := some 0 }

def testExperiment : Experiment :=
  { mkExperiment "exp-a" with leadsAssigned := 1, outreachSent := 1 }

def testLog : OutreachLog :=
  { id := 1
    leadId := 1
    experimentId := "exp-a"
    templateId := "tpl-1"
    subject := "hello"
    body := "hi"
    channel := "email"
    sentVia := "lightfield"
    externalMessageId := some "msg-1"
    status := .sent
    errorMessage := none
    createdAt := 0
    sentAt := some 0
    openedAt := none
    clickedAt := none
    repliedAt := none }

def testTemplate : OutreachTemplate :=
  { templateId := "tpl-1"
    experimentId := "exp-a"
    subjectLine := some "Quick intro"
    bodyTemplate := "Hi there"
    personalizationPrompt := none
    channel := "email"
    isActive := true }

def testRecord : RawLeadRecord :=
  { lightfieldId := "lf-1"
    companyName := "Acme"
    contactName := some "Ann"
    contactEmail := some "ann@acme.test"
    industry := some "software"
    companySize := some "51-200" }

def testSentResult : SendResult :=
  { status := "sent"
    error := none
    messageId := some "msg-1"
    provider := some "lightfield"
    sentAt := some 5 }

def testFailedResult : SendResult :=
  { status := "failed"
    error := some "HTTP 503"
    messageId := none
    provider := none
    sentAt := none }

/-! ## Helper lemmas -/

theorem round3_mem {x : ℚ} (h1 : 1/5 ≤ x) (h2 : x ≤ 19/20) :
    1/5 ≤ round3 x ∧ round3 x ≤ 19/20 := by
  have h := abs_sub_round (1000 * x)
  rw [abs_le] at h
  obtain ⟨hl, hr⟩ := h
  have hge : (200 : ℤ) ≤ round (1000 * x) := by
    have hq : (199 : ℚ) < ((round (1000 * x) : ℤ) : ℚ) := by linarith
    have hz : (199 : ℤ) < round (1000 * x) := by exact_mod_cast hq
    omega
  have hle : round (1000 * x) ≤ (950 : ℤ) := by
    have hq : ((round (1000 * x) : ℤ) : ℚ) < 951 := by linarith
    have hz : round (1000 * x) < (951 : ℤ) := by exact_mod_cast hq
    omega
  have hgeq : (200 : ℚ) ≤ ((round (1000 * x) : ℤ) : ℚ) := by exact_mod_cast hge
  have hleq : ((round (1000 * x) : ℤ) : ℚ) ≤ 950 := by exact_mod_cast hle
  unfold round3
  constructor <;> [linarith; linarith]

theorem clamp_mem (y : ℚ) :
    1/5 ≤ min (0.95 : ℚ) (max 0.2 y) ∧ min (0.95 : ℚ) (max 0.2 y) ≤ 19/20 := by
  constructor
  · apply le_min
    · norm_num
    · calc (1/5 : ℚ) = 0.2 := by norm_num
        _ ≤ max 0.2 y := le_max_left _ _
  · calc min (0.95 : ℚ) (max 0.2 y) ≤ 0.95 := min_le_left _ _
      _ = 19/20 := by norm_num

/-- C10: for every input payload (any company size and revenue, missing
fields included) and every jitter value, `_mock_score_lead` returns with a
score inside `[0.2, 0.95]` and a persona that is `"enterprise"` exactly when
the employee count is at least 500 and `"smb"` otherwise — never a score
outside the clamp and never the personas startup, individual or unknown.
(Proved for all rational jitters, which covers everything
`random.uniform(-0.05, 0.05)` can produce.) -/
theorem mock_scorer_total_bounds (ec : Option ℤ) (rev : Option ℚ) (j : ℚ) :
    1/5 ≤ (mockScoreLead ec rev j).score ∧
    (mockScoreLead ec rev j).score ≤ 19/20 ∧
    ((mockScoreLead ec rev j).persona = "enterprise" ∨
      (mockScoreLead ec rev j).persona = "smb") ∧
    ((mockScoreLead ec rev j).persona = "enterprise" ↔ 500 ≤ ec.getD 0) := by
  simp only [mockScoreLead]
  refine ⟨?_, ?_, ?_, ?_⟩
  · exact (round3_mem (clamp_mem _).1 (clamp_mem _).2).1
  · exact (round3_mem (clamp_mem _).1 (clamp_mem _).2).2
  · split_ifs <;> simp
  · split_ifs with h
    · simpa using h
    · constructor
      · intro hcontra
        simp at hcontra
      · intro hge
        exact absurd hge h

theorem findRow_replaceRow_self {κ α : Type} [DecidableEq κ] (key : α → κ)
    (new : α) (l : List α) (h : (findRow key (key new) l).isSome = true) :
    findRow key (key new) (replaceRow key (key new) new l) = some new := by
  induction l with
  | nil => simp [findRow] at h
  | cons a t ih =>
    by_cases hk : key a = key new
    · simp [findRow, replaceRow, hk]
    · have h' : (findRow key (key new) t).isSome = true := by
        simpa [findRow, hk] using h
      simpa [findRow, replaceRow, hk] using ih h'

theorem findRow_replaceRow_ne {κ α : Type} [DecidableEq κ] (key : α → κ)
    (new : α) (k' : κ) (l : List α) (h : k' ≠ key new) :
    findRow key k' (replaceRow key (key new) new l) = findRow key k' l := by
  induction l with
  | nil => simp [findRow, replaceRow]
  | cons a t ih =>
    simp only [replaceRow, findRow]
    by_cases hk : key a = key new
    · have hne : ¬ key new = k' := fun hh => h hh.symm
      have hne' : ¬ key a = k' := by rw [hk]; exact hne
      rw [if_pos hk, if_neg hne, if_neg hne', ih]
    · rw [if_neg hk]
      by_cases hk' : key a = k'
      · rw [if_pos hk', if_pos hk']
      · rw [if_neg hk', if_neg hk', ih]

theorem findRow_none_append {κ α : Type} [DecidableEq κ] (key : α → κ) (k : κ)
    (l : List α) (x : α) (h : findRow key k l = none) (hx : key x = k) :
    findRow key k (l ++ [x]) = some x := by
  induction l with
  | nil => simp [findRow, hx]
  | cons a t ih =>
    by_cases hk : key a = k
    · simp [findRow, hk] at h
    · rw [List.cons_append]
      simp only [findRow, if_neg hk] at h ⊢
      exact ih h

theorem countP_zero_of_findRow_none {κ α : Type} [DecidableEq κ] (key : α → κ)
    (k : κ) (l : List α) (h : findRow key k l = none) :
    l.countP (fun x => decide (key x = k)) = 0 := by
  induction l with
  | nil => simp
  | cons a t ih =>
    by_cases hk : key a = k
    · simp [findRow, hk] at h
    · simp only [findRow, if_neg hk] at h
      simp [List.countP_cons, hk, ih h]

theorem findRow_isSome_of_mem {κ α : Type} [DecidableEq κ] (key : α → κ)
    (x : α) (l : List α) (hmem : x ∈ l) :
    (findRow key (key x) l).isSome = true := by
  induction l with
  | nil => simp at hmem
  | cons a t ih =>
    by_cases hk : key a = key x
    · simp [findRow, hk]
    · rcases List.mem_cons.mp hmem with h | h
      · exact absurd (congrArg key h.symm) hk
      · simpa [findRow, hk] using ih h

theorem foldl_pickLater_mem (l : List OutreachLog) (acc : Option OutreachLog)
    (g : OutreachLog) (h : l.foldl pickLater acc = some g) :
    acc = some g ∨ g ∈ l := by
  induction l generalizing acc with
  | nil => exact Or.inl h
  | cons a t ih =>
    rcases ih (pickLater acc a) (by simpa using h) with h' | h'
    · match acc, h' with
      | none, h' =>
          have hga : g = a := by
            have : some a = some g := by simpa [pickLater] using h'
            exact (Option.some.inj this).symm
          exact Or.inr (List.mem_cons.mpr (Or.inl hga))
      | some b, h' =>
          by_cases hc : a.createdAt > b.createdAt
          · have hga : g = a := by
              have : some a = some g := by simpa [pickLater, hc] using h'
              exact (Option.some.inj this).symm
            exact Or.inr (List.mem_cons.mpr (Or.inl hga))
          · have hgb : some b = some g := by simpa [pickLater, hc] using h'
            exact Or.inl hgb
    · exact Or.inr (List.mem_cons.mpr (Or.inr h'))

theorem latestLogFor_mem (logs : List OutreachLog) (lid : ℕ) (eid : String)
    (g : OutreachLog) (h : latestLogFor logs lid eid = some g) : g ∈ logs := by
  unfold latestLogFor at h
  rcases foldl_pickLater_mem _ _ _ h with h' | h'
  · simp at h'
  · exact (List.mem_filter.mp h').1

theorem updateMetrics_preserves (e : Experiment) :
    e.updateMetrics.experimentId = e.experimentId ∧
    e.updateMetrics.leadsAssigned = e.leadsAssigned ∧
    e.updateMetrics.outreachSent = e.outreachSent ∧
    e.updateMetrics.responsesReceived = e.responsesReceived ∧
    e.updateMetrics.conversions = e.conversions ∧
    e.updateMetrics.alpha = e.alpha ∧
    e.updateMetrics.beta = e.beta ∧
    e.updateMetrics.isActive = e.isActive := by
  simp only [Experiment.updateMetrics]
  split_ifs <;> simp

theorem updateMetrics_conversionRate (e : Experiment)
    (h : 0 < e.leadsAssigned) :
    e.updateMetrics.conversionRate = (e.conversions : ℚ) / (e.leadsAssigned : ℚ) := by
  simp only [Experiment.updateMetrics]
  split_ifs with h1 h2 <;> simp_all

/-! ## Claim C4: company-size normalization -/

/-- C4 counterexample: the claim maps `"1000+"` to 2000 and every
unrecognized label to 0, but `_estimate_employee_count` returns 1500 for
`"1000+"` (the `"+"` branch computes the midpoint of `1000` and `2000`) and
returns 300 for the unlisted label `"300"` (the final `int(size)` branch). -/
theorem estimate_employee_count_claim_counterexample :
    estimateEmployeeCount (some "1000+") ≠ 2000 ∧
    estimateEmployeeCount (some "1000+") = 1500 ∧
    estimateEmployeeCount (some "300") ≠ 0 := by decide

/-- C4 amended: the size labels `"1-10"`, `"11-50"`, `"51-200"`,
`"201-1000"` map to the bucket midpoints 5, 30, 125 and 600; `"1000+"` maps
to 1500 (midpoint of the bound and its double); other numeric forms are
parsed (`"N+"` → midpoint of `N` and `2N`, `"a-b"` → midpoint, a bare
integer → itself); a missing, empty or non-numeric label maps to 0. -/
theorem estimate_employee_count_spec :
    estimateEmployeeCount (some "1-10") = 5 ∧
    estimateEmployeeCount (some "11-50") = 30 ∧
    estimateEmployeeCount (some "51-200") = 125 ∧
    estimateEmployeeCount (some "201-1000") = 600 ∧
    estimateEmployeeCount (some "1000+") = 1500 ∧
    estimateEmployeeCount (some "2000+") = 3000 ∧
    estimateEmployeeCount (some "300-500") = 400 ∧
    estimateEmployeeCount (some "300") = 300 ∧
    estimateEmployeeCount none = 0 ∧
    estimateEmployeeCount (some "") = 0 ∧
    estimateEmployeeCount (some "unknown") = 0 ∧
    estimateEmployeeCount (some "n/a") = 0 ∧
    estimateEmployeeCount (some "Unknown Size") = 0 := by decide

theorem findRow_key {κ α : Type} [DecidableEq κ] (key : α → κ) (k : κ)
    (l : List α) (x : α) (h : findRow key k l = some x) : key x = k := by
  induction l with
  | nil => simp [findRow] at h
  | cons a t ih =>
    by_cases hk : key a = k
    · simp only [findRow, if_pos hk] at h
      rw [← Option.some.inj h]; exact hk
    · simp only [findRow, if_neg hk] at h
      exact ih h

/-! ## Claim C3: conversion replay is not deduplicated -/

/-- C3: replaying an `outreach.converted` event for the same
`(lead, experiment)` pair increments `alpha` once per delivery, not once in
total: starting from `α = 1`, two deliveries of the identical conversion
event leave `α = 3` (the claim requires `α = 2`).  The handler has no
processed-events ledger and no state guard — the branch runs again even
though the lead is already `converted`. -/
theorem feedback_converted_replay_double_increments_alpha :
    testExperiment.alpha = 1 ∧
    (findExperiment
        (processEngagementEvent 2 ⟨"outreach.converted", some 1, some "exp-a"⟩
          (processEngagementEvent 1 ⟨"outreach.converted", some 1, some "exp-a"⟩
            ⟨[testLead], [testExperiment], [], [testLog]⟩).2).2
        "exp-a").map Experiment.alpha = some 3 ∧
    (findExperiment
        (processEngagementEvent 2 ⟨"outreach.converted", some 1, some "exp-a"⟩
          (processEngagementEvent 1 ⟨"outreach.converted", some 1, some "exp-a"⟩
            ⟨[testLead], [testExperiment], [], [testLog]⟩).2).2
        "exp-a").map Experiment.alpha ≠ some 2 := by
  refine ⟨by norm_num [testExperiment, mkExperiment], ?_, ?_⟩ <;>
    · simp [processEngagementEvent, findLeadById, findExperiment, findRow,
        testLead, testExperiment, testLog, mkExperiment, updateLead,
        updateExperiment, updateLog, replaceRow, latestLogFor,
        updateThompsonSamplingPriors, Experiment.updateMetrics]
      norm_num

/-! ## Claim C5: the `outreach.opened` transition is not guarded -/

/-- C5 counterexample: the claim says the feedback worker sets a log to
`opened` only when its current status is `sent`; in the code the
`outreach.opened` branch overwrites the latest log's status unconditionally,
here moving it backwards from `replied` to `opened`. -/
theorem feedback_opened_regression_counterexample :
    ({ testLog with status := .replied, repliedAt := some 1 }).status ≠ .sent ∧
    (findLog
        (processEngagementEvent 2 ⟨"outreach.opened", some 1, some "exp-a"⟩
          ⟨[testLead], [testExperiment], [],
            [{ testLog with status := .replied, repliedAt := some 1 }]⟩).2
        1).map OutreachLog.status = some .opened := by decide

/-- C5 amended: on an `outreach.opened` event the feedback worker sets the
most recent log for `(lead_id, experiment_id)` to `opened` and stamps
`opened_at` regardless of the log's current status (`* → opened`); the
"only from `sent`" guard of the claim is not implemented, so the status can
also move backwards from a later stage. -/
theorem feedback_opened_sets_latest_log_opened
    (now lid : ℕ) (eid : String) (db : Db) (lead : Lead) (exp : Experiment)
    (g : OutreachLog)
    (hlid : lid ≠ 0) (heid : eid ≠ "")
    (hlead : findLeadById db lid = some lead)
    (hexp : findExperiment db eid = some exp)
    (hlog : latestLogFor db.logs lid eid = some g) :
    (processEngagementEvent now ⟨"outreach.opened", some lid, some eid⟩ db).1
      = true ∧
    findLog
      (processEngagementEvent now ⟨"outreach.opened", some lid, some eid⟩ db).2
      g.id = some { g with status := .opened, openedAt := some now } := by
  have hmem : g ∈ db.logs := latestLogFor_mem _ _ _ _ hlog
  have hsome : (findRow OutreachLog.id g.id db.logs).isSome = true :=
    findRow_isSome_of_mem OutreachLog.id g db.logs hmem
  have hcond : ¬ (lid = 0 ∨ eid = "") := by
    rintro (h | h)
    · exact hlid h
    · exact heid h
  simp only [processEngagementEvent, if_neg hcond]
  rw [hlead, hexp, hlog]
  simp only [findLog, updateExperiment, updateLog]
  refine ⟨by simp, ?_⟩
  exact findRow_replaceRow_self OutreachLog.id
    { g with status := .opened, openedAt := some now } db.logs hsome

/-- C5 witness: the amended theorem applied to a concrete database. -/
theorem feedback_opened_sets_latest_log_opened_witness :
    (processEngagementEvent 7 ⟨"outreach.opened", some 1, some "exp-a"⟩
        ⟨[testLead], [testExperiment], [], [testLog]⟩).1 = true ∧
    findLog
      (processEngagementEvent 7 ⟨"outreach.opened", some 1, some "exp-a"⟩
        ⟨[testLead], [testExperiment], [], [testLog]⟩).2
      testLog.id = some { testLog with status := .opened, openedAt := some 7 } :=
  feedback_opened_sets_latest_log_opened 7 1 "exp-a"
    ⟨[testLead], [testExperiment], [], [testLog]⟩ testLead testExperiment testLog
    (by decide) (by decide) rfl rfl rfl


/-! ## Claim C6: effect of a conversion event -/

/-- C6: processing `outreach.converted` for an existing lead and experiment
(one with at least one assigned lead, so the rate recomputation fires) ends
with the lead in `converted`, `conversions` incremented by 1, `alpha`
incremented by 1, `beta` unchanged, and `conversion_rate` recomputed from
the updated counters; the handler returns success, so the offset is
committed. -/
theorem feedback_converted_updates
    (now lid : ℕ) (eid : String) (db : Db) (lead : Lead) (exp : Experiment)
    (hlid : lid ≠ 0) (heid : eid ≠ "")
    (hlead : findLeadById db lid = some lead)
    (hexp : findExperiment db eid = some exp)
    (hla : 0 < exp.leadsAssigned) :
    (processEngagementEvent now ⟨"outreach.converted", some lid, some eid⟩ db).1
      = true ∧
    findLeadById
      (processEngagementEvent now ⟨"outreach.converted", some lid, some eid⟩ db).2
      lid = some { lead with status := .converted } ∧
    ∃ e',
      findExperiment
        (processEngagementEvent now ⟨"outreach.converted", some lid, some eid⟩ db).2
        eid = some e' ∧
      e'.conversions = exp.conversions + 1 ∧
      e'.alpha = exp.alpha + 1 ∧
      e'.beta = exp.beta ∧
      e'.conversionRate = ((exp.conversions : ℚ) + 1) / (exp.leadsAssigned : ℚ) := by
  have hid : lead.id = lid := findRow_key Lead.id lid db.leads lead hlead
  have heidx : exp.experimentId = eid :=
    findRow_key Experiment.experimentId eid db.experiments exp hexp
  have hcond : ¬ (lid = 0 ∨ eid = "") := by
    rintro (h | h)
    · exact hlid h
    · exact heid h
  have e1eq : updateThompsonSamplingPriors
      { exp with conversions := exp.conversions + 1 } true
      = { exp with conversions := exp.conversions + 1,
                   alpha := exp.alpha + 1 } := by
    simp [updateThompsonSamplingPriors]
  simp only [processEngagementEvent, if_neg hcond]
  rw [hlead, hexp]
  simp only [e1eq]
  refine ⟨by simp, ?_, ?_⟩
  · -- the lead row after the commit
    have hsomeLead :
        (findRow Lead.id
          (({ lead with status := .converted } : Lead).id) db.leads).isSome
          = true := by
      show (findRow Lead.id lead.id db.leads).isSome = true
      rw [hid]
      unfold findLeadById at hlead
      rw [hlead]
      rfl
    have h2 := findRow_replaceRow_self Lead.id
      ({ lead with status := .converted }) db.leads hsomeLead
    simp only [findLeadById, updateExperiment, updateLead]
    rw [← hid]
    exact h2
  · -- the experiment row after the commit
    set e1 : Experiment :=
      { exp with conversions := exp.conversions + 1, alpha := exp.alpha + 1 }
      with he1
    have hEid : e1.updateMetrics.experimentId = eid := by
      rw [(updateMetrics_preserves e1).1]
      exact heidx
    have hsomeExp :
        (findRow Experiment.experimentId e1.updateMetrics.experimentId
          db.experiments).isSome = true := by
      rw [hEid]
      unfold findExperiment at hexp
      rw [hexp]
      rfl
    have h3 := findRow_replaceRow_self Experiment.experimentId
      e1.updateMetrics db.experiments hsomeExp
    refine ⟨e1.updateMetrics, ?_, ?_, ?_, ?_, ?_⟩
    · simp only [findExperiment, updateExperiment, updateLead]
      rw [← hEid]
      exact h3
    · rw [(updateMetrics_preserves e1).2.2.2.2.1]
    · rw [(updateMetrics_preserves e1).2.2.2.2.2.1]
    · rw [(updateMetrics_preserves e1).2.2.2.2.2.2.1]
    · rw [updateMetrics_conversionRate e1 (by exact hla)]
      show ((exp.conversions + 1 : ℕ) : ℚ) / ((exp.leadsAssigned : ℕ) : ℚ)
          = ((exp.conversions : ℚ) + 1) / (exp.leadsAssigned : ℚ)
      push_cast
      ring

/-- C6 witness: the conversion-update theorem applied to a concrete
database (experiment at `α = 1, β = 1`, one assigned lead). -/
theorem feedback_converted_updates_witness :
    (processEngagementEvent 3 ⟨"outreach.converted", some 1, some "exp-a"⟩
        ⟨[testLead], [testExperiment], [], []⟩).1 = true ∧
    findLeadById
      (processEngagementEvent 3 ⟨"outreach.converted", some 1, some "exp-a"⟩
        ⟨[testLead], [testExperiment], [], []⟩).2 1
      = some { testLead with status := .converted } ∧
    ∃ e',
      findExperiment
        (processEngagementEvent 3 ⟨"outreach.converted", some 1, some "exp-a"⟩
          ⟨[testLead], [testExperiment], [], []⟩).2 "exp-a" = some e' ∧
      e'.conversions = testExperiment.conversions + 1 ∧
      e'.alpha = testExperiment.alpha + 1 ∧
      e'.beta = testExperiment.beta ∧
      e'.conversionRate
        = ((testExperiment.conversions : ℚ) + 1) / (testExperiment.leadsAssigned : ℚ) :=
  feedback_converted_updates 3 1 "exp-a"
    ⟨[testLead], [testExperiment], [], []⟩ testLead testExperiment
    (by decide) (by decide) rfl rfl (by decide)

/-! ## Claim C7: the 0.5 contact threshold is strict -/

/-- C7: a scored-lead record whose lead has a null score or a score strictly
below 0.5 makes the orchestrator return success (so the offset is committed)
with the database untouched and nothing emitted — no experiment selection
effect, no send, no `OutreachLog`, no lead transition; a lead whose score is
exactly 0.5 is not skipped: with an active experiment, a template and a
successful send it proceeds to outreach (a new `OutreachLog` row appears). -/
theorem orchestrator_score_threshold :
    (∀ (lfid : String) (db : Db) (lead : Lead) (sample : String → ℚ)
        (message : PersonalizedMessage) (sendResult : SendResult)
        (newLogId now : ℕ),
      lfid ≠ "" →
      findLeadByLightfieldId db lfid = some lead →
      ¬ (lead.status = .contacted ∨ lead.status = .responded ∨
          lead.status = .converted) →
      (lead.score = none ∨ ∃ sc, lead.score = some sc ∧ sc < 1/2) →
      processScoredLead (some lfid) db sample message sendResult newLogId now
        = ⟨true, db, []⟩) ∧
    (∀ (lfid : String) (db : Db) (lead : Lead) (e : Experiment)
        (t : OutreachTemplate) (sample : String → ℚ)
        (message : PersonalizedMessage) (sendResult : SendResult)
        (newLogId now : ℕ),
      lfid ≠ "" →
      findLeadByLightfieldId db lfid = some lead →
      ¬ (lead.status = .contacted ∨ lead.status = .responded ∨
          lead.status = .converted) →
      lead.score = some (1/2) →
      selectExperiment db.experiments sample = some e →
      getTemplateForExperiment db.templates e = some t →
      sendResult.status = "sent" →
      (processScoredLead (some lfid) db sample message sendResult newLogId now).ok
        = true ∧
      (processScoredLead (some lfid) db sample message sendResult newLogId
          now).db.logs.length = db.logs.length + 1) := by
  constructor
  · intro lfid db lead sample message sendResult newLogId now hne hlead hstat hscore
    simp only [processScoredLead, if_neg hne, hlead]
    rw [if_neg hstat]
    rcases hscore with hnone | ⟨sc, hsc, hlt⟩
    · rw [hnone]
    · rw [hsc]
      simp only [if_pos hlt]
  · intro lfid db lead e t sample message sendResult newLogId now hne hlead hstat
      hscore hsel htpl hsent
    have hnlt : ¬ ((1 : ℚ)/2 < 1/2) := by norm_num
    have hsendok : ¬ (sendResult.status ≠ "sent") := fun h => h hsent
    simp only [processScoredLead, if_neg hne, hlead, if_neg hstat, hscore,
      if_neg hnlt, hsel, htpl, if_neg hsendok]
    constructor
    · trivial
    · simp [updateExperiment, updateLead]

/-- C7 witness: the threshold theorem applied to concrete databases — a lead
at score 0.25 is skipped with a committed offset and untouched database; a
lead at exactly 0.5 is contacted (one new log row). -/
theorem orchestrator_score_threshold_witness :
    processScoredLead (some "lf-1")
        ⟨[{ testLead with status := .scored, score := some (1/4) }],
          [testExperiment], [testTemplate], []⟩
        (fun _ => 1/2) ⟨some "s", some "b"⟩ testSentResult 1 5
      = ⟨true,
          ⟨[{ testLead with status := .scored, score := some (1/4) }],
            [testExperiment], [testTemplate], []⟩, []⟩ ∧
    ((processScoredLead (some "lf-1")
        ⟨[{ testLead with status := .scored, score := some (1/2) }],
          [testExperiment], [testTemplate], []⟩
        (fun _ => 1/2) ⟨some "s", some "b"⟩ testSentResult 1 5).ok = true ∧
      (processScoredLead (some "lf-1")
        ⟨[{ testLead with status := .scored, score := some (1/2) }],
          [testExperiment], [testTemplate], []⟩
        (fun _ => 1/2) ⟨some "s", some "b"⟩ testSentResult 1 5).db.logs.length
        = (Db.mk [{ testLead with status := .scored, score := some (1/2) }]
            [testExperiment] [testTemplate] []).logs.length + 1) :=
  ⟨orchestrator_score_threshold.1 "lf-1"
      ⟨[{ testLead with status := .scored, score := some (1/4) }],
        [testExperiment], [testTemplate], []⟩
      { testLead with status := .scored, score := some (1/4) }
      (fun _ => 1/2) ⟨some "s", some "b"⟩ testSentResult 1 5
      (by decide) rfl (by decide) (Or.inr ⟨1/4, rfl, by norm_num⟩),
   orchestrator_score_threshold.2 "lf-1"
      ⟨[{ testLead with status := .scored, score := some (1/2) }],
        [testExperiment], [testTemplate], []⟩
      { testLead with status := .scored, score := some (1/2) }
      testExperiment testTemplate
      (fun _ => 1/2) ⟨some "s", some "b"⟩ testSentResult 1 5
      (by decide) rfl (by decide) rfl
      (by norm_num [selectExperiment, testExperiment, mkExperiment]) rfl rfl⟩

/-! ## Claim C1: behaviour on a failed delivery -/

/-- C1 counterexample: for a scored lead that passes every guard while the
delivery adapter returns `status="failed"`, the claim asserts an
`OutreachLog` row with `status=failed` is inserted and the offset committed;
in the code `process_scored_lead` returns `False` before any insert, so the
log table stays empty and `main` does not commit. -/
theorem orchestrator_failed_send_claim_counterexample :
    ¬ ((processScoredLead (some "lf-1")
          ⟨[{ testLead with status := .scored }], [testExperiment],
            [testTemplate], []⟩
          (fun _ => 1/2) ⟨some "s", some "b"⟩ testFailedResult 1 5).db.logs ≠ []
        ∧
        (processScoredLead (some "lf-1")
          ⟨[{ testLead with status := .scored }], [testExperiment],
            [testTemplate], []⟩
          (fun _ => 1/2) ⟨some "s", some "b"⟩ testFailedResult 1 5).ok = true) ∧
    (processScoredLead (some "lf-1")
        ⟨[{ testLead with status := .scored }], [testExperiment],
          [testTemplate], []⟩
        (fun _ => 1/2) ⟨some "s", some "b"⟩ testFailedResult 1 5)
      = ⟨false,
          ⟨[{ testLead with status := .scored }], [testExperiment],
            [testTemplate], []⟩, []⟩ := by
  have hres :
      (processScoredLead (some "lf-1")
        ⟨[{ testLead with status := .scored }], [testExperiment],
          [testTemplate], []⟩
        (fun _ => 1/2) ⟨some "s", some "b"⟩ testFailedResult 1 5)
      = ⟨false,
          ⟨[{ testLead with status := .scored }], [testExperiment],
            [testTemplate], []⟩, []⟩ := by
    norm_num +decide [processScoredLead, findLeadByLightfieldId, findRow,
      testLead, testExperiment, testTemplate, testFailedResult, mkExperiment,
      selectExperiment, getTemplateForExperiment, firstWhere]
  refine ⟨?_, hres⟩
  rw [hres]
  rintro ⟨h1, h2⟩
  exact absurd h2 (by decide)

/-- C1 amended: when the delivery adapter's result has a status other than
`sent`, `process_scored_lead` returns failure without inserting any
`OutreachLog`, without touching the lead or the experiment, and without
emitting an event; because it returns `False`, the main loop does not commit
the offset and the record is redelivered. -/
theorem orchestrator_failed_send_no_log_no_commit
    (lfid : String) (db : Db) (lead : Lead) (e : Experiment)
    (t : OutreachTemplate) (sc : ℚ) (sample : String → ℚ)
    (message : PersonalizedMessage) (sendResult : SendResult)
    (newLogId now : ℕ)
    (hne : lfid ≠ "")
    (hlead : findLeadByLightfieldId db lfid = some lead)
    (hstat : ¬ (lead.status = .contacted ∨ lead.status = .responded ∨
        lead.status = .converted))
    (hscore : lead.score = some sc) (hsc : ¬ sc < 1/2)
    (hsel : selectExperiment db.experiments sample = some e)
    (htpl : getTemplateForExperiment db.templates e = some t)
    (hfail : sendResult.status ≠ "sent") :
    processScoredLead (some lfid) db sample message sendResult newLogId now
      = ⟨false, db, []⟩ := by
  simp only [processScoredLead, if_neg hne, hlead, if_neg hstat, hscore,
    if_neg hsc, hsel, htpl, if_pos hfail]

/-- C1 witness: the amended theorem at a concrete database with a failed
delivery result. -/
theorem orchestrator_failed_send_no_log_no_commit_witness :
    processScoredLead (some "lf-1")
        ⟨[{ testLead with status := .scored }], [testExperiment],
          [testTemplate], []⟩
        (fun _ => 3/4) ⟨some "s", some "b"⟩ testFailedResult 2 9
      = ⟨false,
          ⟨[{ testLead with status := .scored }], [testExperiment],
            [testTemplate], []⟩, []⟩ :=
  orchestrator_failed_send_no_log_no_commit "lf-1"
    ⟨[{ testLead with status := .scored }], [testExperiment],
      [testTemplate], []⟩
    { testLead with status := .scored } testExperiment testTemplate 0.9
    (fun _ => 3/4) ⟨some "s", some "b"⟩ testFailedResult 2 9
    (by decide) rfl (by decide) rfl (by norm_num)
    (by norm_num [selectExperiment, testExperiment, mkExperiment])
    rfl (by decide)

/-! ## Claim C2: ordering of commit and publish in the Scorer -/

/-- C2 counterexample: with a failing `leads.scored` publish on a fresh
record, the claim asserts the publish precedes the commit and a failed
publish rolls the transaction back, so no Lead ever persists without its
scored event; in the code the commit precedes the publish attempt, so the
Lead row persists while nothing is emitted — and the offset is still
committed, because `publish_scored_lead` swallows the failure. -/
theorem scorer_emit_before_commit_counterexample :
    (processLead ⟨[], [], [], []⟩ testRecord ⟨0.9, .smb⟩ 1 0 false).db.leads ≠ []
      ∧
    (processLead ⟨[], [], [], []⟩ testRecord ⟨0.9, .smb⟩ 1 0 false).emitted = []
      ∧
    (processLead ⟨[], [], [], []⟩ testRecord ⟨0.9, .smb⟩ 1 0 false).trace
      = [.dbCommit, .publishAttempt] ∧
    scorerOffsetCommitted
      (processLead ⟨[], [], [], []⟩ testRecord ⟨0.9, .smb⟩ 1 0 false) = true := by
  refine ⟨?_, rfl, rfl, rfl⟩
  intro h
  exact absurd (congrArg List.length h) (by decide)

/-- C2 amended: `process_lead` commits the Lead insert first and only then
attempts the `leads.scored` publish; when the publish fails, the Lead stays
persisted and nothing is emitted, but no exception reaches the worker —
`publish_scored_lead` catches it and returns `False`, which `process_lead`
ignores — so `run` still commits the offset and the scored event is
permanently missing (the record is not even redelivered). -/
theorem scorer_commit_before_publish_gap
    (db : Db) (record : RawLeadRecord) (scoring : ScoringResult)
    (newId now : ℕ)
    (h : findLeadByLightfieldId db record.lightfieldId = none) :
    (∃ l : Lead,
        (processLead db record scoring newId now false).db.leads
          = db.leads ++ [l] ∧
        l.lightfieldId = record.lightfieldId) ∧
    (processLead db record scoring newId now false).emitted = [] ∧
    (processLead db record scoring newId now false).raised = false ∧
    scorerOffsetCommitted (processLead db record scoring newId now false)
      = true ∧
    (processLead db record scoring newId now false).trace
      = [.dbCommit, .publishAttempt] := by
  simp only [processLead, h, scorerOffsetCommitted]
  refine ⟨⟨_, rfl, rfl⟩, rfl, rfl, rfl, rfl⟩

/-- C2 witness: the commit-before-publish theorem at a concrete record. -/
theorem scorer_commit_before_publish_gap_witness :
    (∃ l : Lead,
        (processLead ⟨[], [], [], []⟩ testRecord ⟨0.9, .smb⟩ 4 11 false).db.leads
          = ([] : List Lead) ++ [l] ∧
        l.lightfieldId = testRecord.lightfieldId) ∧
    (processLead ⟨[], [], [], []⟩ testRecord ⟨0.9, .smb⟩ 4 11 false).emitted = []
      ∧
    (processLead ⟨[], [], [], []⟩ testRecord ⟨0.9, .smb⟩ 4 11 false).raised
      = false ∧
    scorerOffsetCommitted
      (processLead ⟨[], [], [], []⟩ testRecord ⟨0.9, .smb⟩ 4 11 false) = true ∧
    (processLead ⟨[], [], [], []⟩ testRecord ⟨0.9, .smb⟩ 4 11 false).trace
      = [.dbCommit, .publishAttempt] :=
  scorer_commit_before_publish_gap ⟨[], [], [], []⟩ testRecord ⟨0.9, .smb⟩
    4 11 rfl

/-! ## Claim C8: scorer idempotence under redelivery -/

/-- C8: redelivering a raw-lead record whose `lightfield_id` already has a
Lead row makes `process_lead` return immediately — no insert, no event, no
exception (so `run` commits the offset); and processing the same fresh
record twice, whatever the publish outcomes, leaves exactly one Lead row
with that id, the second attempt short-circuiting at the existence check. -/
theorem scorer_idempotent_redelivery :
    (∀ (db : Db) (record : RawLeadRecord) (scoring : ScoringResult)
        (newId now : ℕ) (publishOk : Bool),
      (findLeadByLightfieldId db record.lightfieldId).isSome = true →
      processLead db record scoring newId now publishOk
        = ⟨db, [], [], false⟩) ∧
    (∀ (db : Db) (record : RawLeadRecord) (s1 s2 : ScoringResult)
        (id1 id2 t1 t2 : ℕ) (p1 p2 : Bool),
      findLeadByLightfieldId db record.lightfieldId = none →
      countLeadsWithId db record.lightfieldId = 0 →
      countLeadsWithId
        (processLead (processLead db record s1 id1 t1 p1).db record s2 id2 t2
          p2).db record.lightfieldId = 1 ∧
      (processLead (processLead db record s1 id1 t1 p1).db record s2 id2 t2
          p2).db = (processLead db record s1 id1 t1 p1).db ∧
      (processLead (processLead db record s1 id1 t1 p1).db record s2 id2 t2
          p2).raised = false) := by
  constructor
  · intro db record scoring newId now publishOk hsome
    rcases hfind : findLeadByLightfieldId db record.lightfieldId with _ | l
    · rw [hfind] at hsome; simp at hsome
    · simp only [processLead, hfind]
  · intro db record s1 s2 id1 id2 t1 t2 p1 p2 hnone hcount
    have hdb1 : (processLead db record s1 id1 t1 p1).db
        = { db with leads := db.leads ++
            [{ id := id1
               lightfieldId := record.lightfieldId
               companyName := record.companyName
               contactName := record.contactName
               contactEmail := record.contactEmail
               industry := record.industry
               companySize := record.companySize
               score := some s1.score
               persona := s1.persona
               status := .scored
               experimentId := none
               outreachCount := 0
               responseCount := 0
               scoredAt := some t1
               contactedAt := none }] } := by
      simp only [processLead, hnone]
      cases p1 <;> rfl
    generalize hX : (processLead db record s1 id1 t1 p1).db = X
    rw [hX] at hdb1
    have hfind2 : findLeadByLightfieldId X record.lightfieldId
        = some
          { id := id1
            lightfieldId := record.lightfieldId
            companyName := record.companyName
            contactName := record.contactName
            contactEmail := record.contactEmail
            industry := record.industry
            companySize := record.companySize
            score := some s1.score
            persona := s1.persona
            status := .scored
            experimentId := none
            outreachCount := 0
            responseCount := 0
            scoredAt := some t1
            contactedAt := none } := by
      rw [hdb1]
      unfold findLeadByLightfieldId at hnone ⊢
      exact findRow_none_append Lead.lightfieldId record.lightfieldId
        db.leads _ hnone rfl
    have hskip : processLead X record s2 id2 t2 p2 = ⟨X, [], [], false⟩ := by
      simp only [processLead, hfind2]
    refine ⟨?_, ?_, ?_⟩
    · rw [hskip]
      show countLeadsWithId X record.lightfieldId = 1
      rw [hdb1]
      unfold countLeadsWithId
      simp only [List.countP_append]
      unfold countLeadsWithId at hcount
      rw [hcount]
      simp
    · rw [hskip]
    · rw [hskip]

/-- C8 witness: both parts at concrete databases — a populated database is
left untouched with the offset committed, and a double delivery of a fresh
record yields exactly one row. -/
theorem scorer_idempotent_redelivery_witness :
    (processLead ⟨[testLead], [], [], []⟩ testRecord ⟨0.9, .smb⟩ 2 1 true
      = ⟨⟨[testLead], [], [], []⟩, [], [], false⟩) ∧
    (countLeadsWithId
        (processLead (processLead ⟨[], [], [], []⟩ testRecord ⟨0.9, .smb⟩ 1 1
          true).db testRecord ⟨0.8, .smb⟩ 2 2 true).db
        testRecord.lightfieldId = 1 ∧
      (processLead (processLead ⟨[], [], [], []⟩ testRecord ⟨0.9, .smb⟩ 1 1
          true).db testRecord ⟨0.8, .smb⟩ 2 2 true).db
        = (processLead ⟨[], [], [], []⟩ testRecord ⟨0.9, .smb⟩ 1 1 true).db ∧
      (processLead (processLead ⟨[], [], [], []⟩ testRecord ⟨0.9, .smb⟩ 1 1
          true).db testRecord ⟨0.8, .smb⟩ 2 2 true).raised = false) :=
  ⟨scorer_idempotent_redelivery.1 ⟨[testLead], [], [], []⟩ testRecord
      ⟨0.9, .smb⟩ 2 1 true rfl,
   scorer_idempotent_redelivery.2 ⟨[], [], [], []⟩ testRecord ⟨0.9, .smb⟩
      ⟨0.8, .smb⟩ 1 2 1 2 true true rfl rfl⟩

/-! ## Claim C9: experiment invariants across pipeline operations -/

/-- C9: a freshly created experiment starts at `alpha = beta = 1` with zero
counters; every pipeline operation on an experiment row (orchestrator send
bookkeeping, and each feedback-worker branch) preserves `alpha ≥ 1` and
`beta ≥ 1` — only non-negative amounts are ever added — and never decreases
any of the four counters. -/
theorem experiment_invariants_preserved :
    (∀ eid : String,
      1 ≤ (mkExperiment eid).alpha ∧ 1 ≤ (mkExperiment eid).beta ∧
      (mkExperiment eid).leadsAssigned = 0 ∧ (mkExperiment eid).outreachSent = 0 ∧
      (mkExperiment eid).responsesReceived = 0 ∧ (mkExperiment eid).conversions = 0) ∧
    (∀ (e : Experiment) (op : PipelineOp),
      1 ≤ e.alpha → 1 ≤ e.beta →
      1 ≤ (applyPipelineOp e op).alpha ∧ 1 ≤ (applyPipelineOp e op).beta) ∧
    (∀ (e : Experiment) (op : PipelineOp),
      e.leadsAssigned ≤ (applyPipelineOp e op).leadsAssigned ∧
      e.outreachSent ≤ (applyPipelineOp e op).outreachSent ∧
      e.responsesReceived ≤ (applyPipelineOp e op).responsesReceived ∧
      e.conversions ≤ (applyPipelineOp e op).conversions) := by
  refine ⟨?_, ?_, ?_⟩
  · intro eid
    refine ⟨by norm_num [mkExperiment], by norm_num [mkExperiment], rfl, rfl,
      rfl, rfl⟩
  · intro e op ha hb
    cases op <;>
      simp only [applyPipelineOp, updateThompsonSamplingPriors,
        updateMetrics_preserves, if_true, eq_self_iff_true] <;>
      constructor <;> linarith
  · intro e op
    cases op <;>
      simp only [applyPipelineOp, updateThompsonSamplingPriors,
        updateMetrics_preserves, if_true, eq_self_iff_true] <;>
      refine ⟨?_, ?_, ?_, ?_⟩ <;> simp

/-- C9 witness: the invariant theorem applied to a fresh experiment, a
conversion update, and an orchestrator send on a concrete experiment row. -/
theorem experiment_invariants_preserved_witness :
    (1 ≤ (mkExperiment "exp-w").alpha ∧ 1 ≤ (mkExperiment "exp-w").beta ∧
      (mkExperiment "exp-w").leadsAssigned = 0 ∧
      (mkExperiment "exp-w").outreachSent = 0 ∧
      (mkExperiment "exp-w").responsesReceived = 0 ∧
      (mkExperiment "exp-w").conversions = 0) ∧
    (1 ≤ (applyPipelineOp testExperiment .fbConverted).alpha ∧
      1 ≤ (applyPipelineOp testExperiment .fbConverted).beta) ∧
    (testExperiment.leadsAssigned
        ≤ (applyPipelineOp testExperiment .orchSend).leadsAssigned ∧
      testExperiment.outreachSent
        ≤ (applyPipelineOp testExperiment .orchSend).outreachSent ∧
      testExperiment.responsesReceived
        ≤ (applyPipelineOp testExperiment .orchSend).responsesReceived ∧
      testExperiment.conversions
        ≤ (applyPipelineOp testExperiment .orchSend).conversions) :=
  ⟨experiment_invariants_preserved.1 "exp-w",
   experiment_invariants_preserved.2.1 testExperiment .fbConverted
     (by norm_num [testExperiment, mkExperiment])
     (by norm_num [testExperiment, mkExperiment]),
   experiment_invariants_preserved.2.2 testExperiment .orchSend⟩
